import Mathlib

/-!
Verification of the image framing pipeline (`image_framer.py`).

The development is a shallow embedding of the two functions of the source
file, `annotate_image` (single-image annotator) and `annotate_images`
(folder batch driver), together with models of the external services the
code calls into (PIL decode/rotate/save, font measurement, piexif tag
extraction, `os.path.splitext`).  Machine arithmetic of the source is exact
(Python integers are unbounded); the two `float` computations of the source
(the resize scale and the `:.1f` aperture format) are modelled over `ℚ`,
which agrees with the float evaluation except for sub-ulp rounding at exact
decimal ties and the spec's acknowledged "±1 independent-axis truncation".
-/

set_option maxHeartbeats 1000000

deriving instance DecidableEq for Except

namespace ImageFramer

/-- ASCII model of Python `str.lower` on a single character (the file names
and extensions the code lowercases are ASCII). -/
def lower_char (c : Char) : Char :=
  if 65 ≤ c.toNat ∧ c.toNat ≤ 90 then Char.ofNat (c.toNat + 32) else c

/-- ASCII model of Python `str.lower`. -/
def ascii_lower (s : String) : String :=
  String.mk (s.data.map lower_char)

/-- Model of `file_name.lower().endswith(".jpg") or file_name.lower().endswith(".jpeg")`
(source line 134-137): the extension filter of the batch driver. -/
def qualifies (name : String) : Bool :=
  ".jpg".data.isSuffixOf (ascii_lower name).data
    || ".jpeg".data.isSuffixOf (ascii_lower name).data

/-- Position of the last `.` in a character list, if any. -/
def last_dot_pos : List Char → Option Nat
  | [] => none
  | c :: cs =>
    match last_dot_pos cs with
    | some i => some (i + 1)
    | none => if c = '.' then some 0 else none

/-- Model of the root part of `os.path.splitext(name)` for names without a
directory separator before the last dot: the extension begins at the last
dot, unless every character before that dot is itself a dot (so a
leading-dot name such as `".jpg"` has no extension and is its own root). -/
def splitext_stem (name : String) : String :=
  match last_dot_pos name.data with
  | none => name
  | some d =>
    if (name.data.take d).any (fun c => c != '.') then String.mk (name.data.take d)
    else name

/-- Model of the extension part of `os.path.splitext(name)` (same convention
as `splitext_stem`; the two parts concatenate back to `name`). -/
def splitext_ext (name : String) : String :=
  match last_dot_pos name.data with
  | none => ""
  | some d =>
    if (name.data.take d).any (fun c => c != '.') then String.mk (name.data.drop d)
    else ""

/-- Model of the external PIL contract for `Image.save(path)` when no explicit
format argument is given (source line 113): the encoder is selected by the
lowercased extension of the destination path through PIL's registered
extension map (excerpt); an unregistered extension raises `ValueError`. -/
def PIL_save_format (path : String) : Option String :=
  let ext := ascii_lower (splitext_ext path)
  if ext = ".jpg" ∨ ext = ".jpeg" ∨ ext = ".jpe" ∨ ext = ".jfif" then some "JPEG"
  else if ext = ".png" ∨ ext = ".apng" then some "PNG"
  else if ext = ".gif" then some "GIF"
  else if ext = ".bmp" then some "BMP"
  else if ext = ".tif" ∨ ext = ".tiff" then some "TIFF"
  else if ext = ".webp" then some "WEBP"
  else if ext = ".ppm" ∨ ext = ".pgm" ∨ ext = ".pbm" then some "PPM"
  else if ext = ".ico" then some "ICO"
  else none

/-- Model of the external PIL decoder contract: the format identifiers
`Image.open` can report (`img.format`).  PIL reports JPEG files as `"JPEG"`;
no decoder ever reports `"JPG"`, so the second disjunct of the source's
format test (line 23) is unreachable on decoded inputs. -/
def pil_decoder_formats : List String :=
  ["BLP", "BMP", "DDS", "DIB", "EPS", "GIF", "ICNS", "ICO", "IM", "JPEG",
   "JPEG2000", "MPO", "MSP", "PCX", "PNG", "PPM", "PSD", "QOI", "SGI",
   "SPIDER", "TGA", "TIFF", "WEBP", "XBM"]

/-- Round `10 * a / b` to the nearest integer, ties to even: the exact-value
model of Python's `f"{a/b:.1f}"` digit selection (source line 63).  The
intermediate binary-float conversion Python performs can move an exact
decimal tie by one ulp; this does not affect the digit layout. -/
def round_half_even_tenths (a b : Nat) : Nat :=
  if 2 * (10 * a % b) < b then 10 * a / b
  else if b < 2 * (10 * a % b) then 10 * a / b + 1
  else if (10 * a / b) % 2 = 0 then 10 * a / b else 10 * a / b + 1

/-- Model of the Python format `f"{a/b:.1f}"`: exactly one digit after the
decimal point. -/
def fmt_1f (a b : Nat) : String :=
  toString (round_half_even_tenths a b / 10) ++ "." ++ toString (round_half_even_tenths a b % 10)

/-- Caption line 2 (source line 63):
`f"{(focal_length[0] // focal_length[1])}mm   f/{aperture[0]/aperture[1]:.1f}   {shutter_speed[0]}/{shutter_speed[1]}s   ISO{iso}"`.
EXIF rationals are unsigned, so Python `//` on them is `Nat` division. -/
def line2_string (fn fd an ad sn sd iso : Nat) : String :=
  toString (fn / fd) ++ "mm   f/" ++ fmt_1f an ad ++ "   " ++ toString sn ++ "/"
    ++ toString sd ++ "s   ISO" ++ toString iso

/-- EXIF block of a source image as `piexif.load` exposes it (source lines
45-50): each required tag is present or absent. -/
structure ExifData where
  model : Option String
  iso : Option Nat
  exposureTime : Option (Nat × Nat)
  focalLength : Option (Nat × Nat)
  fNumber : Option (Nat × Nat)
  deriving DecidableEq

/-- Decoded source image: format tag and pixel dimensions reported by PIL,
the result of reading the EXIF orientation tag (`img._getexif()`, which can
raise, return no block, or return a block without the tag), and the raw
EXIF block of `img.info["exif"]` if present. -/
structure SourceImage where
  format : String
  width : Nat
  height : Nat
  orientationRead : Except String (Option Nat)
  exifBlock : Option ExifData
  deriving DecidableEq

/-- Model of PIL `Image.rotate(deg, expand=True)` at the angles the source
uses: 90 and 270 swap width and height, 180 (and 0) keep them; the rotated
image keeps `info` (and so the EXIF block) because PIL's right-angle
transposes copy `info`. -/
def SourceImage.rotate (img : SourceImage) (deg : Nat) : SourceImage :=
  if deg = 90 ∨ deg = 270 then
    { img with width := img.height, height := img.width }
  else img

/-- Orientation handling block of the source (lines 27-42): read the EXIF
orientation value; rotate by 180 for value 3, 270 for value 6, 90 for value
8, nothing otherwise; any exception while reading is caught and logged and
the unrotated image is used. -/
def handle_rotation (img : SourceImage) : SourceImage :=
  match img.orientationRead with
  | .error _ => img
  | .ok none => img
  | .ok (some v) =>
    if v = 3 then img.rotate 180
    else if v = 6 then img.rotate 270
    else if v = 8 then img.rotate 90
    else img

/-- Corrective rotation angle the spec prescribes for an EXIF orientation
value: 180 for 3, 270 for 6, 90 for 8, none otherwise. -/
def orientation_rotation (v : Nat) : Nat :=
  if v = 3 then 180 else if v = 6 then 270 else if v = 8 then 90 else 0

/-- Rotation angle a source image receives: the spec's angle for the stored
orientation value, and 0 when the tag is absent or its read failed. -/
def read_rotation (img : SourceImage) : Nat :=
  match img.orientationRead with
  | .ok (some v) => orientation_rotation v
  | _ => 0

/-- Keyword parameters of both source functions with their default values
(source lines 6-19 and 117-128). -/
structure Config where
  border_width : Nat := 100
  frame_color : String := "white"
  text_color : String := "black"
  second_line_color : String := "#7a7a7a"
  font_path : String := "./fonts/Roboto-Regular.ttf"
  bold_font_path : String := "./fonts/Roboto-Bold.ttf"
  font_size : Nat := 132
  line_spacing : Nat := 72
  text_padding : Nat := 150
  long_edge_size : Nat := 2000
  deriving DecidableEq

/-- Model of the external font services (`ImageFont.truetype` plus
`ImageDraw.textbbox((0,0), text, font)`): the width (bbox index 2) and the
height (bbox index 3) of a text run for the font file at a path rendered at
a point size. -/
structure FontMetrics where
  textW : String → Nat → String → Nat
  textH : String → Nat → String → Nat

/-- Observable effect of a successful `annotate_image` call: the destination
path and encoded format of the one file written, the final canvas geometry,
the caption runs and their drawn positions, and the pixel dimensions after
the long-edge resize. -/
structure RenderedOutput where
  path : String
  format : String
  canvas_width : Nat
  canvas_height : Nat
  text_start_y : Nat
  line2_y : Nat
  line1_x : Int
  line2_x : Int
  line1_part1 : String
  line1_part2 : String
  line2 : String
  out_width : Nat
  out_height : Nat
  deriving DecidableEq

/-- Metadata extraction (source lines 45-50): sequential dict accesses for
Model, ISOSpeedRatings, ExposureTime, FocalLength and FNumber; the first
absent tag raises `KeyError`, which nothing in the function catches. -/
def extract_metadata (b : ExifData) :
    Except String (String × Nat × (Nat × Nat) × (Nat × Nat) × (Nat × Nat)) :=
  match b.model with
  | none => .error "KeyError: Model"
  | some model =>
    match b.iso with
    | none => .error "KeyError: ISOSpeedRatings"
    | some iso =>
      match b.exposureTime with
      | none => .error "KeyError: ExposureTime"
      | some shutter_speed =>
        match b.focalLength with
        | none => .error "KeyError: FocalLength"
        | some focal_length =>
          match b.fNumber with
          | none => .error "KeyError: FNumber"
          | some aperture => .ok (model, iso, shutter_speed, focal_length, aperture)

/-- Frame layout, caption drawing and final resize of the source (lines
52-114), for the already rotated image and extracted metadata.  The source
computes `scale_ratio = long_edge_size / long_edge` in floats and truncates
`int(dim * scale_ratio)`; the exact value of that nonnegative product is the
floor division `dim * long_edge_size / long_edge` written here (the float
detour can drift by at most the spec's acknowledged ±1). -/
def render_frame (fm : FontMetrics) (img : SourceImage) (model : String) (iso : Nat)
    (shutter_speed focal_length aperture : Nat × Nat) (output_path : String)
    (cfg : Config) : Except String (Option RenderedOutput) :=
  let new_width := img.width + 2 * cfg.border_width
  let framed_height := img.height + 2 * cfg.border_width + cfg.text_padding
  let line1_part1 := "Shot on "
  let line1_part2 := model
  let line2 := line2_string focal_length.1 focal_length.2 aperture.1 aperture.2
    shutter_speed.1 shutter_speed.2 iso
  let line1_part1_width := fm.textW cfg.font_path cfg.font_size line1_part1
  let line1_part2_width := fm.textW cfg.bold_font_path cfg.font_size line1_part2
  let line2_width := fm.textW cfg.font_path cfg.font_size line2
  let total_text_height := fm.textH cfg.font_path cfg.font_size line1_part1
    + fm.textH cfg.font_path cfg.font_size line2 + cfg.line_spacing
  let new_height := framed_height + total_text_height + cfg.text_padding
  let text_start_y := img.height + cfg.border_width + cfg.text_padding
  let line1_x := Int.fdiv ((new_width : Int) - ((line1_part1_width : Int) + (line1_part2_width : Int))) 2
  let line2_y := text_start_y + fm.textH cfg.font_path cfg.font_size line1_part1 + cfg.line_spacing
  let line2_x := Int.fdiv ((new_width : Int) - (line2_width : Int)) 2
  let long_edge := max new_width new_height
  let out_w := new_width * cfg.long_edge_size / long_edge
  let out_h := new_height * cfg.long_edge_size / long_edge
  match PIL_save_format output_path with
  | none => .error "ValueError: unknown file extension"
  | some fmt =>
    .ok (some { path := output_path, format := fmt,
                canvas_width := new_width, canvas_height := new_height,
                text_start_y := text_start_y, line2_y := line2_y,
                line1_x := line1_x, line2_x := line2_x,
                line1_part1 := line1_part1, line1_part2 := line1_part2, line2 := line2,
                out_width := out_w, out_height := out_h })

/-- Steps of `annotate_image` after the format check: access `img.info["exif"]`
(a missing block raises `KeyError`, uncaught), extract the metadata and
render.  The image passed here is the orientation-corrected one. -/
def annotate_jpeg (fm : FontMetrics) (img : SourceImage) (output_path : String)
    (cfg : Config) : Except String (Option RenderedOutput) :=
  match img.exifBlock with
  | none => .error "KeyError: exif"
  | some b =>
    match extract_metadata b with
    | .error e => .error e
    | .ok (model, iso, shutter_speed, focal_length, aperture) =>
      render_frame fm img model iso shutter_speed focal_length aperture output_path cfg

/-- `annotate_image` on a decoded image (source lines 20-114): skip with a
logged notice when the reported format is neither "JPEG" nor "JPG" (line
23-25, returning normally with no output), otherwise correct the
orientation and continue. -/
def annotate_decoded (fm : FontMetrics) (img0 : SourceImage) (output_path : String)
    (cfg : Config) : Except String (Option RenderedOutput) :=
  if img0.format ≠ "JPEG" ∧ img0.format ≠ "JPG" then .ok none
  else annotate_jpeg fm (handle_rotation img0) output_path cfg

/-- The single-image annotator (source lines 6-114).  `Image.open` may raise
(propagated); a successful run returns the one written file, a non-JPEG
input returns `.ok none` (skip, no file written), and every other failure
is an uncaught exception `.error e` with nothing written. -/
def annotate_image : FontMetrics → Except String SourceImage → String → Config →
    Except String (Option RenderedOutput)
  | _, .error e, _, _ => .error e
  | fm, .ok img0, output_path, cfg => annotate_decoded fm img0 output_path cfg

/-- The file a call of `annotate_image` wrote, if any. -/
def saved_format (r : Except String (Option RenderedOutput)) : Option String :=
  match r with
  | .ok (some out) => some out.format
  | _ => none

/-- Whether a call of `annotate_image` raised an uncaught exception. -/
def raises (r : Except String (Option RenderedOutput)) : Bool :=
  match r with
  | .error _ => true
  | .ok _ => false

/-- A directory entry as the batch driver sees it: the file name returned by
`os.listdir` and the outcome of `Image.open` on it. -/
structure FileEntry where
  name : String
  openResult : Except String SourceImage
  deriving DecidableEq

/-- Batch destination (source lines 141-143):
`os.path.join(folder_path, f"{os.path.splitext(file_name)[0]}F.jpg")`. -/
def output_path_for (folder name : String) : String :=
  folder ++ "/" ++ (splitext_stem name ++ "F.jpg")

/-- Observable trace of a batch run: for each call of the single-image
annotator the entry index and destination passed to it, the files written
(with the producing entry's index), and the indices skipped with the
non-JPEG notice. -/
structure BatchTrace where
  invoked : List (Nat × String) := []
  saved : List (Nat × RenderedOutput) := []
  skipped : List Nat := []
  deriving DecidableEq

/-- Loop body of `annotate_images` (source lines 131-158), indexing the
entries in enumeration order: a non-matching name is skipped with a notice;
otherwise `annotate_image` runs, and an exception it raises leaves the loop
at once (second component `some err`), with the work already done kept. -/
def batch_loop (fm : FontMetrics) (cfg : Config) (folder : String) :
    Nat → BatchTrace → List FileEntry → BatchTrace × Option String
  | _, acc, [] => (acc, none)
  | i, acc, e :: rest =>
    if qualifies e.name then
      let outP := output_path_for folder e.name
      let acc2 := { acc with invoked := acc.invoked ++ [(i, outP)] }
      match annotate_image fm e.openResult outP cfg with
      | .error err => (acc2, some err)
      | .ok none => batch_loop fm cfg folder (i + 1) acc2 rest
      | .ok (some out) =>
        batch_loop fm cfg folder (i + 1) { acc2 with saved := acc2.saved ++ [(i, out)] } rest
    else
      batch_loop fm cfg folder (i + 1) { acc with skipped := acc.skipped ++ [i] } rest

/-- The folder batch driver (source lines 117-160).  The whole loop body sits
inside `try ... except Exception as e: print(...)`, so a failing `os.listdir`
and an exception escaping any single annotation both land in the same
handler: the call always returns normally, with the trace accumulated so
far. -/
def annotate_images (fm : FontMetrics) (listing : Except String (List FileEntry))
    (folder : String) (cfg : Config) : Except String BatchTrace :=
  match listing with
  | .error _ => .ok { }
  | .ok l =>
    match batch_loop fm cfg folder 0 { } l with
    | (acc, _) => .ok acc

/-- Trace of a batch run (the driver always returns one). -/
def traceOf (r : Except String BatchTrace) : BatchTrace :=
  match r with
  | .ok t => t
  | .error _ => { }

/-- Whether the batch driver returned normally to its caller. -/
def returns_normally (r : Except String BatchTrace) : Bool :=
  match r with
  | .ok _ => true
  | .error _ => false

/-- Written from the spec's batch contract, for comparison with the code:
the invocations the driver should make are exactly the entries whose
lowercased name ends in `.jpg` or `.jpeg`, in enumeration order, each with
the destination obtained by removing the source extension and appending
`F.jpg` inside the same folder. -/
def expected_invocations (folder : String) : Nat → List FileEntry → List (Nat × String)
  | _, [] => []
  | i, e :: rest =>
    if qualifies e.name then
      (i, output_path_for folder e.name) :: expected_invocations folder (i + 1) rest
    else expected_invocations folder (i + 1) rest

/-- Written from the spec's batch contract: every other entry is skipped
with a logged notice. -/
def expected_skips : Nat → List FileEntry → List Nat
  | _, [] => []
  | i, e :: rest =>
    if qualifies e.name then expected_skips (i + 1) rest
    else i :: expected_skips (i + 1) rest

/-- A required caption tag is absent: no EXIF block at all, or some of
Model, ISOSpeedRatings, ExposureTime, FocalLength, FNumber missing. -/
def missing_required_tag : Option ExifData → Bool
  | none => true
  | some b =>
    b.model.isNone || b.iso.isNone || b.exposureTime.isNone
      || b.focalLength.isNone || b.fNumber.isNone

/-- Concrete font metric environment for witnesses: width 10 pixels per
character, height 100 for every run. -/
def fm0 : FontMetrics where
  textW := fun _ _ s => 10 * s.length
  textH := fun _ _ _ => 100

/-- The default configuration of both source functions. -/
def cfg0 : Config := { }

/-- A complete EXIF block. -/
def exif0 : ExifData where
  model := some "TestCam"
  iso := some 100
  exposureTime := some (1, 250)
  focalLength := some (35, 1)
  fNumber := some (28, 10)

/-- A valid JPEG input with complete EXIF metadata. -/
def img0 : SourceImage where
  format := "JPEG"
  width := 400
  height := 300
  orientationRead := .ok (some 1)
  exifBlock := some exif0

/-- A decoded non-JPEG input. -/
def imgPng : SourceImage where
  format := "PNG"
  width := 10
  height := 10
  orientationRead := .ok none
  exifBlock := none

/-- A JPEG input with no EXIF block at all. -/
def imgNoExif : SourceImage where
  format := "JPEG"
  width := 50
  height := 40
  orientationRead := .ok none
  exifBlock := none

/-- The output `annotate_image fm0 (.ok img0) "d/outF.jpg" cfg0` writes. -/
def r0 : RenderedOutput where
  path := "d/outF.jpg"
  format := "JPEG"
  canvas_width := 600
  canvas_height := 1072
  text_start_y := 550
  line2_y := 722
  line1_x := 225
  line2_x := 150
  line1_part1 := "Shot on "
  line1_part2 := "TestCam"
  line2 := "35mm   f/2.8   1/250s   ISO100"
  out_width := 1119
  out_height := 2000

/-- A well-formed JPEG directory entry. -/
def entryA : FileEntry := { name := "a.jpg", openResult := .ok img0 }

/-- A well-formed JPEG directory entry with the longer extension. -/
def entryB : FileEntry := { name := "b.jpeg", openResult := .ok img0 }

/-- A non-JPEG directory entry. -/
def entryC : FileEntry := { name := "c.png", openResult := .ok imgPng }

/-- A qualifying entry whose annotation raises (missing EXIF block). -/
def entryBad : FileEntry := { name := "bad.jpg", openResult := .ok imgNoExif }

/-! ### Helper lemmas -/

/-- Orientation correction never touches the EXIF block (PIL's right-angle
rotations copy `info`). -/
lemma handle_rotation_exifBlock (img : SourceImage) :
    (handle_rotation img).exifBlock = img.exifBlock := by
  rcases h : img.orientationRead with e | ov
  · simp [handle_rotation, h]
  · cases ov with
    | none => simp [handle_rotation, h]
    | some v =>
      simp only [handle_rotation, h]
      split_ifs <;> simp [SourceImage.rotate]

/-- When a required tag is absent, the sequential dict accesses of the
extraction step raise. -/
lemma extract_metadata_raises (b : ExifData)
    (h : missing_required_tag (some b) = true) :
    ∃ e, extract_metadata b = .error e := by
  unfold extract_metadata
  cases hm : b.model with
  | none => exact ⟨_, rfl⟩
  | some md =>
    cases hi : b.iso with
    | none => exact ⟨_, rfl⟩
    | some i =>
      cases hsp : b.exposureTime with
      | none => exact ⟨_, rfl⟩
      | some ss =>
        cases hf : b.focalLength with
        | none => exact ⟨_, rfl⟩
        | some fl =>
          cases ha : b.fNumber with
          | none => exact ⟨_, rfl⟩
          | some ap =>
            exfalso
            simp [missing_required_tag, hm, hi, hsp, hf, ha] at h

/-- Inversion of a successful render: every field of the written output in
terms of the rotated image, the metadata and the configuration. -/
lemma render_frame_ok (fm : FontMetrics) (img : SourceImage) (md : String) (i : Nat)
    (ss fl ap : Nat × Nat) (out : String) (cfg : Config) (r : RenderedOutput)
    (h : render_frame fm img md i ss fl ap out cfg = .ok (some r)) :
    PIL_save_format out = some r.format ∧
    r.path = out ∧
    r.canvas_width = img.width + 2 * cfg.border_width ∧
    r.canvas_height = (img.height + 2 * cfg.border_width + cfg.text_padding)
        + (fm.textH cfg.font_path cfg.font_size "Shot on "
            + fm.textH cfg.font_path cfg.font_size r.line2 + cfg.line_spacing)
        + cfg.text_padding ∧
    r.text_start_y = img.height + cfg.border_width + cfg.text_padding ∧
    r.line2 = line2_string fl.1 fl.2 ap.1 ap.2 ss.1 ss.2 i ∧
    r.out_width = r.canvas_width * cfg.long_edge_size / max r.canvas_width r.canvas_height ∧
    r.out_height = r.canvas_height * cfg.long_edge_size / max r.canvas_width r.canvas_height := by
  simp only [render_frame] at h
  split at h
  · simp at h
  next fmt heq =>
    injection h with h1
    injection h1 with h2
    subst h2
    exact ⟨heq, rfl, rfl, rfl, rfl, rfl, rfl, rfl⟩

/-- Inversion of a successful annotation: the format check passed, an EXIF
block was present, every required tag was extracted, and the output is the
rendered frame. -/
lemma annotate_ok_some (fm : FontMetrics) (img : SourceImage) (out : String)
    (cfg : Config) (r : RenderedOutput)
    (h : annotate_image fm (.ok img) out cfg = .ok (some r)) :
    ∃ b md i ss fl ap,
      (handle_rotation img).exifBlock = some b ∧
      extract_metadata b = .ok (md, i, ss, fl, ap) ∧
      render_frame fm (handle_rotation img) md i ss fl ap out cfg = .ok (some r) := by
  simp only [annotate_image, annotate_decoded] at h
  split at h
  · simp at h
  · simp only [annotate_jpeg] at h
    split at h
    · simp at h
    next b heq =>
      split at h
      · simp at h
      next md i ss fl ap heq2 =>
        exact ⟨b, md, i, ss, fl, ap, heq, heq2, h⟩

/-- Exact-value bridge between the spec's rational resize formula and the
floor division computed in the embedding. -/
lemma toNat_floor_mul_div (w L m : Nat) :
    Int.toNat ⌊(w : ℚ) * ((L : ℚ) / (m : ℚ))⌋ = w * L / m := by
  rw [Int.floor_toNat]
  rw [show (w : ℚ) * ((L : ℚ) / (m : ℚ)) = ((w * L : ℕ) : ℚ) / (m : ℚ) by push_cast; ring]
  rw [Nat.floor_div_nat, Nat.floor_natCast]

/-- Scaling both canvas dimensions by `L / max` and flooring sends the long
edge exactly to `L`. -/
lemma max_scaled (cw ch L : Nat) (hcw : 0 < cw) :
    max (cw * L / max cw ch) (ch * L / max cw ch) = L := by
  rcases le_total cw ch with h | h
  · have hch : 0 < ch := lt_of_lt_of_le hcw h
    rw [max_eq_right h]
    have h2 : ch * L / ch = L := Nat.mul_div_cancel_left L hch
    have h1 : cw * L / ch ≤ ch * L / ch := Nat.div_le_div_right (Nat.mul_le_mul_right L h)
    rw [h2] at h1 ⊢
    exact max_eq_right h1
  · rw [max_eq_left h]
    have h2 : cw * L / cw = L := Nat.mul_div_cancel_left L hcw
    have h1 : ch * L / cw ≤ cw * L / cw := Nat.div_le_div_right (Nat.mul_le_mul_right L h)
    rw [h2] at h1 ⊢
    exact max_eq_left h1

/-! ### Claim theorems -/

/-- C4: for every extracted exposure metadata, caption line 2 is exactly
`{focal length floored to an integer}mm   f/{aperture to one decimal digit}   {shutter numerator}/{shutter denominator}s   ISO{iso}`:
the focal length is the floor of the rational `fn / fd`, the aperture field
carries exactly one digit after the decimal point, and the shutter speed is
the raw unreduced numerator/denominator pair. -/
theorem line2_caption_format (fn fd an ad sn sd iso : Nat) :
    ∃ (w d : Nat), d < 10 ∧
      line2_string fn fd an ad sn sd iso =
        toString (Nat.floor ((fn : ℚ) / (fd : ℚ))) ++ "mm   f/"
          ++ (toString w ++ "." ++ toString d) ++ "   " ++ toString sn ++ "/"
          ++ toString sd ++ "s   ISO" ++ toString iso := by
  refine ⟨round_half_even_tenths an ad / 10, round_half_even_tenths an ad % 10,
    Nat.mod_lt _ (by norm_num), ?_⟩
  rw [Nat.floor_div_nat, Nat.floor_natCast]
  rfl

/-- C9: the corrective rotation `annotate_image` applies is determined solely
by the EXIF orientation value: 180° for 3, 270° for 6, 90° for 8, none for
any other value, for an absent tag, and for a failed orientation read (the
failure is caught and processing continues with the unrotated image). -/
theorem orientation_correction (img : SourceImage) :
    handle_rotation img = img.rotate (read_rotation img) := by
  rcases h : img.orientationRead with e | ov
  · simp [handle_rotation, read_rotation, h, SourceImage.rotate]
  · cases ov with
    | none => simp [handle_rotation, read_rotation, h, SourceImage.rotate]
    | some v =>
      simp only [handle_rotation, read_rotation, h, orientation_rotation]
      split_ifs <;> simp [SourceImage.rotate]

/-- C7: every decoded input whose PIL-reported format is not JPEG is skipped:
`annotate_image` returns normally with no exception and writes no output
file (result `.ok none`), after the logged notice. -/
theorem non_jpeg_is_skipped (fm : FontMetrics) (img : SourceImage) (out : String)
    (cfg : Config) (hd : img.format ∈ pil_decoder_formats)
    (hne : img.format ≠ "JPEG") :
    annotate_image fm (.ok img) out cfg = .ok none := by
  have hjpg : img.format ≠ "JPG" := by
    intro h
    rw [h] at hd
    exact absurd hd (by decide)
  simp only [annotate_image, annotate_decoded]
  rw [if_pos ⟨hne, hjpg⟩]

/-- Witness for C7 at a concrete PNG input. -/
theorem non_jpeg_is_skipped_witness :
    annotate_image fm0 (.ok imgPng) "d/outF.jpg" cfg0 = .ok none :=
  non_jpeg_is_skipped fm0 imgPng "d/outF.jpg" cfg0 (by decide) (by decide)

/-- C8: a JPEG input missing any required EXIF tag (the whole block, or
Model, ISOSpeedRatings, ExposureTime, FocalLength, FNumber) makes
`annotate_image` raise an uncaught error terminating the call, and no output
file is written. -/
theorem missing_required_tag_fatal (fm : FontMetrics) (img : SourceImage) (out : String)
    (cfg : Config) (hj : img.format = "JPEG")
    (hm : missing_required_tag img.exifBlock = true) :
    raises (annotate_image fm (.ok img) out cfg) = true ∧
    saved_format (annotate_image fm (.ok img) out cfg) = none := by
  have hstep : ∃ e, annotate_image fm (.ok img) out cfg = .error e := by
    simp only [annotate_image, annotate_decoded]
    rw [if_neg (by simp [hj])]
    unfold annotate_jpeg
    rw [handle_rotation_exifBlock]
    cases hb : img.exifBlock with
    | none => exact ⟨_, rfl⟩
    | some b =>
      rw [hb] at hm
      obtain ⟨e, he⟩ := extract_metadata_raises b hm
      dsimp only
      rw [he]
      exact ⟨e, rfl⟩
  obtain ⟨e, he⟩ := hstep
  rw [he]
  exact ⟨rfl, rfl⟩

/-- Witness for C8 at a concrete JPEG input without an EXIF block. -/
theorem missing_required_tag_fatal_witness :
    raises (annotate_image fm0 (.ok imgNoExif) "d/outF.jpg" cfg0) = true ∧
    saved_format (annotate_image fm0 (.ok imgNoExif) "d/outF.jpg" cfg0) = none :=
  missing_required_tag_fatal fm0 imgNoExif "d/outF.jpg" cfg0 (by decide) (by decide)

/-- C5: for every successful annotation of an image of width `w` and height
`h` after orientation correction, the final canvas width is
`w + 2 * border_width`, the final canvas height is the intermediate height
`h + 2 * border_width + text_padding` plus the caption block height (line 1
measured height + line 2 measured height + line_spacing) plus
`text_padding`, and the caption starts `h + border_width + text_padding`
below the canvas top. -/
theorem frame_geometry (fm : FontMetrics) (img : SourceImage) (out : String)
    (cfg : Config) (r : RenderedOutput)
    (hs : annotate_image fm (.ok img) out cfg = .ok (some r)) :
    r.canvas_width = (handle_rotation img).width + 2 * cfg.border_width ∧
    r.canvas_height = ((handle_rotation img).height + 2 * cfg.border_width + cfg.text_padding)
        + (fm.textH cfg.font_path cfg.font_size "Shot on "
            + fm.textH cfg.font_path cfg.font_size r.line2 + cfg.line_spacing)
        + cfg.text_padding ∧
    r.text_start_y = (handle_rotation img).height + cfg.border_width + cfg.text_padding := by
  obtain ⟨b, md, i, ss, fl, ap, hblk, hext, hr⟩ := annotate_ok_some fm img out cfg r hs
  obtain ⟨hfmt, hpath, hcw, hch, hty, hl2, how, hoh⟩ :=
    render_frame_ok fm (handle_rotation img) md i ss fl ap out cfg r hr
  exact ⟨hcw, hch, hty⟩

/-- Witness for C5 at a concrete complete JPEG input. -/
theorem frame_geometry_witness :
    r0.canvas_width = (handle_rotation img0).width + 2 * cfg0.border_width ∧
    r0.canvas_height = ((handle_rotation img0).height + 2 * cfg0.border_width + cfg0.text_padding)
        + (fm0.textH cfg0.font_path cfg0.font_size "Shot on "
            + fm0.textH cfg0.font_path cfg0.font_size r0.line2 + cfg0.line_spacing)
        + cfg0.text_padding ∧
    r0.text_start_y = (handle_rotation img0).height + cfg0.border_width + cfg0.text_padding :=
  frame_geometry fm0 img0 "d/outF.jpg" cfg0 r0 (by decide)

/-- C3: every successful annotation writes exactly one file, whose
dimensions are the final canvas dimensions each multiplied by
`long_edge_size / max(canvas width, canvas height)` and truncated to an
integer independently; consequently the long output edge equals
`long_edge_size` exactly in exact arithmetic (within the claim's ±1). -/
theorem resize_long_edge (fm : FontMetrics) (img : SourceImage) (out : String)
    (cfg : Config) (r : RenderedOutput) (hb : 0 < cfg.border_width)
    (hs : annotate_image fm (.ok img) out cfg = .ok (some r)) :
    r.path = out ∧
    r.out_width = Int.toNat ⌊(r.canvas_width : ℚ)
        * ((cfg.long_edge_size : ℚ) / ((max r.canvas_width r.canvas_height : ℕ) : ℚ))⌋ ∧
    r.out_height = Int.toNat ⌊(r.canvas_height : ℚ)
        * ((cfg.long_edge_size : ℚ) / ((max r.canvas_width r.canvas_height : ℕ) : ℚ))⌋ ∧
    max r.out_width r.out_height = cfg.long_edge_size := by
  obtain ⟨b, md, i, ss, fl, ap, hblk, hext, hr⟩ := annotate_ok_some fm img out cfg r hs
  obtain ⟨hfmt, hpath, hcw, hch, hty, hl2, how, hoh⟩ :=
    render_frame_ok fm (handle_rotation img) md i ss fl ap out cfg r hr
  have hpos : 0 < r.canvas_width := by rw [hcw]; omega
  refine ⟨hpath, ?_, ?_, ?_⟩
  · rw [toNat_floor_mul_div]; exact how
  · rw [toNat_floor_mul_div]; exact hoh
  · rw [how, hoh]; exact max_scaled _ _ _ hpos

/-- Witness for C3 at a concrete complete JPEG input. -/
theorem resize_long_edge_witness :
    r0.path = "d/outF.jpg" ∧
    r0.out_width = Int.toNat ⌊(r0.canvas_width : ℚ)
        * ((cfg0.long_edge_size : ℚ) / ((max r0.canvas_width r0.canvas_height : ℕ) : ℚ))⌋ ∧
    r0.out_height = Int.toNat ⌊(r0.canvas_height : ℚ)
        * ((cfg0.long_edge_size : ℚ) / ((max r0.canvas_width r0.canvas_height : ℕ) : ℚ))⌋ ∧
    max r0.out_width r0.out_height = cfg0.long_edge_size :=
  resize_long_edge fm0 img0 "d/outF.jpg" cfg0 r0 (by decide) (by decide)

/-- C2 counterexample: a successful `annotate_image` call with destination
`"d/out.png"` writes a PNG file, not a JPEG one — `Image.save` is called
without a format argument, so the encoder follows the destination
extension. -/
theorem annotate_saves_png_for_png_destination :
    saved_format (annotate_image fm0 (.ok img0) "d/out.png" cfg0) = some "PNG" ∧
    saved_format (annotate_image fm0 (.ok img0) "d/out.png" cfg0) ≠ some "JPEG" :=
  ⟨by decide, by decide⟩

/-- C2 amended: the format of the file a successful `annotate_image` call
writes is the one PIL derives from the destination path's lowercased
extension; it is JPEG whenever that extension is `.jpg` or `.jpeg` (as for
every destination the batch driver builds), not for every extension. -/
theorem annotate_format_follows_extension (fm : FontMetrics)
    (src : Except String SourceImage) (out : String) (cfg : Config)
    (r : RenderedOutput) (hs : annotate_image fm src out cfg = .ok (some r)) :
    PIL_save_format out = some r.format ∧
    (ascii_lower (splitext_ext out) = ".jpg" ∨ ascii_lower (splitext_ext out) = ".jpeg" →
      r.format = "JPEG") := by
  cases src with
  | error e => exact absurd hs (by simp [annotate_image])
  | ok img =>
    obtain ⟨b, md, i, ss, fl, ap, hblk, hext, hr⟩ := annotate_ok_some fm img out cfg r hs
    obtain ⟨hfmt, _⟩ := render_frame_ok fm (handle_rotation img) md i ss fl ap out cfg r hr
    refine ⟨hfmt, fun he => ?_⟩
    unfold PIL_save_format at hfmt
    rcases he with he | he <;>
      · rw [he] at hfmt
        rw [if_pos (by simp)] at hfmt
        exact (Option.some.injEq _ _ ▸ hfmt).symm

/-- Witness for the amended C2 at a concrete `.jpg` destination. -/
theorem annotate_format_follows_extension_witness :
    PIL_save_format "d/outF.jpg" = some r0.format ∧
    (ascii_lower (splitext_ext "d/outF.jpg") = ".jpg"
        ∨ ascii_lower (splitext_ext "d/outF.jpg") = ".jpeg" →
      r0.format = "JPEG") :=
  annotate_format_follows_extension fm0 (.ok img0) "d/outF.jpg" cfg0 r0 (by decide)

/-- The batch driver always wraps the loop result in `.ok`. -/
lemma annotate_images_eq (fm : FontMetrics) (l : List FileEntry) (folder : String)
    (cfg : Config) :
    annotate_images fm (.ok l) folder cfg = .ok (batch_loop fm cfg folder 0 { } l).1 := by
  have h : ∀ (p : BatchTrace × Option String),
      (match p with | (acc, _) => (Except.ok acc : Except String BatchTrace)) = .ok p.1 := by
    intro p
    rcases p with ⟨acc, st⟩
    rfl
  unfold annotate_images
  exact h _

/-- After the first qualifying entry whose annotation raises, the loop never
looks at the remaining entries. -/
lemma batch_loop_stops_at (fm : FontMetrics) (cfg : Config) (folder : String)
    (e : FileEntry) (err : String)
    (hq : qualifies e.name = true)
    (herr : annotate_image fm e.openResult (output_path_for folder e.name) cfg = .error err) :
    ∀ (l₁ l₂ : List FileEntry) (i : Nat) (acc : BatchTrace),
      batch_loop fm cfg folder i acc (l₁ ++ e :: l₂)
        = batch_loop fm cfg folder i acc (l₁ ++ [e]) := by
  intro l₁
  induction l₁ with
  | nil =>
    intro l₂ i acc
    simp only [List.nil_append]
    simp [batch_loop, hq, herr]
  | cons a l₁ ih =>
    intro l₂ i acc
    simp only [List.cons_append]
    by_cases hqa : qualifies a.name
    · simp only [batch_loop, hqa, if_true]
      rcases han : annotate_image fm a.openResult (output_path_for folder a.name) cfg
        with er | o
      · rfl
      · cases o with
        | none => exact ih l₂ (i + 1) _
        | some outr => exact ih l₂ (i + 1) _
    · simp only [batch_loop, hqa]
      exact ih l₂ (i + 1) _

/-- Every index the loop records comes from the accumulator or from the list
it was given. -/
lemma batch_loop_index_bound (fm : FontMetrics) (cfg : Config) (folder : String) :
    ∀ (l : List FileEntry) (i : Nat) (acc : BatchTrace),
      (∀ x ∈ (batch_loop fm cfg folder i acc l).1.invoked,
        x ∈ acc.invoked ∨ x.1 < i + l.length) ∧
      (∀ x ∈ (batch_loop fm cfg folder i acc l).1.saved,
        x ∈ acc.saved ∨ x.1 < i + l.length) := by
  intro l
  induction l with
  | nil =>
    intro i acc
    exact ⟨fun x hx => Or.inl hx, fun x hx => Or.inl hx⟩
  | cons a rest ih =>
    intro i acc
    by_cases hqa : qualifies a.name
    · rcases han : annotate_image fm a.openResult (output_path_for folder a.name) cfg
        with er | o
      · simp only [batch_loop, hqa, if_true, han]
        constructor
        · intro x hx
          rcases List.mem_append.mp hx with h | h
          · exact Or.inl h
          · right
            rw [List.mem_singleton.mp h]
            show i < i + (a :: rest).length
            simp only [List.length_cons]
            omega
        · intro x hx
          exact Or.inl hx
      · have step :
            ∀ acc2 : BatchTrace,
              (∀ x ∈ acc2.invoked, x ∈ acc.invoked ∨ x.1 = i) →
              (∀ x ∈ acc2.saved, x ∈ acc.saved ∨ x.1 = i) →
              (∀ x ∈ (batch_loop fm cfg folder (i + 1) acc2 rest).1.invoked,
                x ∈ acc.invoked ∨ x.1 < i + (a :: rest).length) ∧
              (∀ x ∈ (batch_loop fm cfg folder (i + 1) acc2 rest).1.saved,
                x ∈ acc.saved ∨ x.1 < i + (a :: rest).length) := by
          intro acc2 hinv hsav
          simp only [List.length_cons]
          constructor
          · intro x hx
            rcases (ih (i + 1) acc2).1 x hx with h | h
            · rcases hinv x h with h2 | h2
              · exact Or.inl h2
              · right; omega
            · right; omega
          · intro x hx
            rcases (ih (i + 1) acc2).2 x hx with h | h
            · rcases hsav x h with h2 | h2
              · exact Or.inl h2
              · right; omega
            · right; omega
        cases o with
        | none =>
          simp only [batch_loop, hqa, if_true, han]
          refine step _ ?_ ?_
          · intro x hx
            rcases List.mem_append.mp hx with h | h
            · exact Or.inl h
            · right
              rw [List.mem_singleton.mp h]
          · intro x hx
            exact Or.inl hx
        | some outr =>
          simp only [batch_loop, hqa, if_true, han]
          refine step _ ?_ ?_
          · intro x hx
            rcases List.mem_append.mp hx with h | h
            · exact Or.inl h
            · right
              rw [List.mem_singleton.mp h]
          · intro x hx
            rcases List.mem_append.mp hx with h | h
            · exact Or.inl h
            · right
              rw [List.mem_singleton.mp h]
    · simp only [batch_loop, hqa]
      simp only [List.length_cons]
      constructor
      · intro x hx
        rcases (ih (i + 1) _).1 x hx with h | h
        · exact Or.inl h
        · right; omega
      · intro x hx
        rcases (ih (i + 1) _).2 x hx with h | h
        · exact Or.inl h
        · right; omega

/-- When no qualifying entry's annotation raises, the loop invokes the
annotator exactly on the qualifying entries and skips exactly the others. -/
lemma batch_loop_complete (fm : FontMetrics) (cfg : Config) (folder : String) :
    ∀ (l : List FileEntry) (i : Nat) (acc : BatchTrace),
      (∀ e ∈ l, qualifies e.name = true →
        raises (annotate_image fm e.openResult (output_path_for folder e.name) cfg) = false) →
      (batch_loop fm cfg folder i acc l).1.invoked
          = acc.invoked ++ expected_invocations folder i l ∧
      (batch_loop fm cfg folder i acc l).1.skipped
          = acc.skipped ++ expected_skips i l := by
  intro l
  induction l with
  | nil =>
    intro i acc h
    simp [batch_loop, expected_invocations, expected_skips]
  | cons a rest ih =>
    intro i acc h
    have ha := h a (List.mem_cons_self a rest)
    have hrest : ∀ e ∈ rest, qualifies e.name = true →
        raises (annotate_image fm e.openResult (output_path_for folder e.name) cfg) = false :=
      fun e he hq => h e (List.mem_cons_of_mem a he) hq
    by_cases hqa : qualifies a.name
    · rcases han : annotate_image fm a.openResult (output_path_for folder a.name) cfg
        with er | o
      · exfalso
        have hr := ha hqa
        rw [han] at hr
        simp [raises] at hr
      · cases o with
        | none =>
          simp only [batch_loop, hqa, if_true, han]
          have hstep := ih (i + 1) ({ acc with invoked := acc.invoked ++ [(i, output_path_for folder a.name)] }) hrest
          rw [hstep.1, hstep.2]
          simp [expected_invocations, expected_skips, hqa, List.append_assoc]
        | some outr =>
          simp only [batch_loop, hqa, if_true, han]
          have hstep := ih (i + 1) ({ acc with invoked := acc.invoked ++ [(i, output_path_for folder a.name)], saved := acc.saved ++ [(i, outr)] }) hrest
          rw [hstep.1, hstep.2]
          simp [expected_invocations, expected_skips, hqa, List.append_assoc]
    · have hstep := ih (i + 1) ({ acc with skipped := acc.skipped ++ [i] }) hrest
      simp [batch_loop, hqa, expected_invocations, expected_skips, hstep.1, hstep.2,
        List.append_assoc]

/-- C6 (also underlying C1's batch-abort part): when a qualifying entry's
annotation raises, no entry after it in enumeration order is processed and
no output file is created for any of those later entries: every invocation
and every written file recorded in the trace belongs to an index at or
before the failing entry's. -/
theorem batch_aborts_after_fatal (fm : FontMetrics) (cfg : Config) (folder : String)
    (l₁ l₂ : List FileEntry) (e : FileEntry) (err : String)
    (hq : qualifies e.name = true)
    (herr : annotate_image fm e.openResult (output_path_for folder e.name) cfg = .error err) :
    ((traceOf (annotate_images fm (.ok (l₁ ++ e :: l₂)) folder cfg)).invoked.all
        fun x => decide (x.1 ≤ l₁.length)) = true ∧
    ((traceOf (annotate_images fm (.ok (l₁ ++ e :: l₂)) folder cfg)).saved.all
        fun x => decide (x.1 ≤ l₁.length)) = true := by
  rw [annotate_images_eq]
  simp only [traceOf]
  rw [batch_loop_stops_at fm cfg folder e err hq herr l₁ l₂ 0 { }]
  obtain ⟨h1, h2⟩ := batch_loop_index_bound fm cfg folder (l₁ ++ [e]) 0 { }
  constructor
  · rw [List.all_eq_true]
    intro x hx
    rcases h1 x hx with h | h
    · exact absurd h (List.not_mem_nil x)
    · rw [decide_eq_true_eq]
      simp only [List.length_append, List.length_cons, List.length_nil] at h
      omega
  · rw [List.all_eq_true]
    intro x hx
    rcases h2 x hx with h | h
    · exact absurd h (List.not_mem_nil x)
    · rw [decide_eq_true_eq]
      simp only [List.length_append, List.length_cons, List.length_nil] at h
      omega

/-- Witness for C6: in `[a.jpg, bad.jpg, b.jpeg]` the failing second entry
stops the batch, so every recorded index is at most 1. -/
theorem batch_aborts_after_fatal_witness :
    ((traceOf (annotate_images fm0 (.ok ([entryA] ++ entryBad :: [entryB])) "d" cfg0)).invoked.all
        fun x => decide (x.1 ≤ [entryA].length)) = true ∧
    ((traceOf (annotate_images fm0 (.ok ([entryA] ++ entryBad :: [entryB])) "d" cfg0)).saved.all
        fun x => decide (x.1 ≤ [entryA].length)) = true :=
  batch_aborts_after_fatal fm0 cfg0 "d" [entryA] [entryB] entryBad "KeyError: exif"
    (by decide) (by decide)

/-- C1 counterexample: a batch whose second qualifying entry's annotation
raises a fatal error (`KeyError` on the missing EXIF block) still returns
normally from `annotate_images` — the blanket `try/except` around the whole
loop catches the error at the folder level, so nothing propagates to the
caller, contrary to the claim. -/
theorem batch_fatal_error_not_propagated :
    annotate_image fm0 entryBad.openResult (output_path_for "d" entryBad.name) cfg0
      = .error "KeyError: exif" ∧
    returns_normally (annotate_images fm0 (.ok [entryA, entryBad, entryB]) "d" cfg0) = true :=
  ⟨by decide, by decide⟩

/-- C1 amended: a fatal error raised by an individual file's annotation
aborts the remaining batch, but it is caught by the folder-level exception
handler (whose `try` block spans the whole loop): `annotate_images` logs it
and returns normally to its caller instead of propagating the error. -/
theorem batch_fatal_error_is_caught (fm : FontMetrics) (cfg : Config) (folder : String)
    (l₁ l₂ : List FileEntry) (e : FileEntry) (err : String)
    (hq : qualifies e.name = true)
    (herr : annotate_image fm e.openResult (output_path_for folder e.name) cfg = .error err) :
    returns_normally (annotate_images fm (.ok (l₁ ++ e :: l₂)) folder cfg) = true ∧
    ((traceOf (annotate_images fm (.ok (l₁ ++ e :: l₂)) folder cfg)).invoked.all
        fun x => decide (x.1 ≤ l₁.length)) = true := by
  constructor
  · rw [annotate_images_eq]
    rfl
  · rw [annotate_images_eq]
    simp only [traceOf]
    rw [batch_loop_stops_at fm cfg folder e err hq herr l₁ l₂ 0 { }]
    obtain ⟨h1, _⟩ := batch_loop_index_bound fm cfg folder (l₁ ++ [e]) 0 { }
    rw [List.all_eq_true]
    intro x hx
    rcases h1 x hx with h | h
    · exact absurd h (List.not_mem_nil x)
    · rw [decide_eq_true_eq]
      simp only [List.length_append, List.length_cons, List.length_nil] at h
      omega

/-- Witness for the amended C1: the failing entry sits after a skipped
`c.png`, the driver returns normally and invokes nothing past it. -/
theorem batch_fatal_error_is_caught_witness :
    returns_normally (annotate_images fm0 (.ok ([entryC] ++ entryBad :: [entryA])) "d" cfg0) = true ∧
    ((traceOf (annotate_images fm0 (.ok ([entryC] ++ entryBad :: [entryA])) "d" cfg0)).invoked.all
        fun x => decide (x.1 ≤ [entryC].length)) = true :=
  batch_fatal_error_is_caught fm0 cfg0 "d" [entryC] [entryA] entryBad "KeyError: exif"
    (by decide) (by decide)

/-- C10: in a batch run where no annotation raises, the driver invokes the
single-image annotator exactly on the entries whose lowercased name ends in
`.jpg` or `.jpeg` (in enumeration order, each with destination
`folder/<stem>F.jpg`, the source extension removed), and skips every other
entry with a logged notice. -/
theorem batch_filter_and_paths (fm : FontMetrics) (cfg : Config) (folder : String)
    (l : List FileEntry)
    (h : ∀ e ∈ l, qualifies e.name = true →
      raises (annotate_image fm e.openResult (output_path_for folder e.name) cfg) = false) :
    (traceOf (annotate_images fm (.ok l) folder cfg)).invoked
        = expected_invocations folder 0 l ∧
    (traceOf (annotate_images fm (.ok l) folder cfg)).skipped = expected_skips 0 l := by
  rw [annotate_images_eq]
  simp only [traceOf]
  obtain ⟨h1, h2⟩ := batch_loop_complete fm cfg folder l 0 { } h
  rw [h1, h2]
  exact ⟨by simp, by simp⟩

/-- A folder listing `[a.jpg, b.jpeg, c.png]` of well-formed entries. -/
def lGood : List FileEntry := [entryA, entryB, entryC]

/-- Witness for C10 on `[a.jpg, b.jpeg, c.png]`. -/
theorem batch_filter_and_paths_witness :
    (traceOf (annotate_images fm0 (.ok lGood) "d" cfg0)).invoked
        = expected_invocations "d" 0 lGood ∧
    (traceOf (annotate_images fm0 (.ok lGood) "d" cfg0)).skipped = expected_skips 0 lGood :=
  batch_filter_and_paths fm0 cfg0 "d" lGood (by decide)

end ImageFramer
